import Mathlib

/-!
A verification development for the ticket-system backend (`src/models.py`).

The repository declares five SQLAlchemy entities (`User`, `Ticket`, `File`,
`Subject`, `TicketSubject`) with nullability, uniqueness and foreign-key
constraints, a `create_db_url` configuration reader, and a demonstration
workflow `main` that creates a user, a ticket, a subject, links them and
attaches a file, committing after every step and rolling back the open
transaction on failure.

We embed the schema as Lean structures, the database as lists of rows, and
the session semantics (`add` + `commit`, rollback to the last committed
state on failure) as explicit state passing.  Identifiers (UUIDs) are
modelled as `Nat`; timestamps as `Nat`.
-/

namespace TicketSystem

/-- A row of the `users` table (models.py lines 38-50).
`nullable=False` columns are still `Option`-typed: the constraint check
rejects `none` there, exactly as the database rejects a NULL insert. -/
structure UserRow where
  id : Nat
  username : Option String
  user_type : Option String
  email : Option String
  password : Option String
  role : Option String
deriving Repr, DecidableEq

/-- A row of the `tickets` table (models.py lines 52-70). -/
structure TicketRow where
  id : Nat
  ticket_number : Option String
  title : Option String
  description : Option String
  priority : Option String
  status : Option String
  start_time : Option Nat
  department : Option String
  user_id : Option Nat
  allocated_to : Option Nat
deriving Repr, DecidableEq

/-- A row of the `files` table (models.py lines 72-84). -/
structure FileRow where
  id : Nat
  name : Option String
  ticket_id : Option Nat
  type : Option String
  size : Option String
  last_modified : Option String
  last_modified_date : Option Nat
  file_path : Option String
deriving Repr, DecidableEq

/-- A row of the `subjects` table (models.py lines 86-96). -/
structure SubjectRow where
  id : Nat
  subject_text : Option String
  description : Option String
  answer_1 : Option String
  answer_2 : Option String
  answer_3 : Option String
deriving Repr, DecidableEq

/-- A row of the `ticket_subjects` join table (models.py lines 98-106);
its primary key is an auto-incrementing integer. -/
structure TicketSubjectRow where
  id : Nat
  ticket_id : Option Nat
  subject_id : Option Nat
deriving Repr, DecidableEq

/-- The committed database state: one list of rows per table. -/
structure DB where
  users : List UserRow
  tickets : List TicketRow
  files : List FileRow
  subjects : List SubjectRow
  ticket_subjects : List TicketSubjectRow
deriving Repr, DecidableEq

/-- The empty database, as produced by `Base.metadata.create_all`. -/
def emptyDB : DB := ⟨[], [], [], [], []⟩

/-- Error taxonomy of the relational store (spec section 7). -/
inductive StoreErr where
  | constraintViolation
  | notFound
  | connectionFailure
  | configurationFailure
deriving Repr, DecidableEq

/-- Tests that a list has no duplicate element; this is how
`primary_key=True` and `unique=True` columns are validated. -/
def distinctB {α : Type} [BEq α] : List α → Bool
  | [] => true
  | x :: xs => !(xs.contains x) && distinctB xs

/-- A required (`nullable=False`) foreign-key column: the value must be
present and reference an existing id. -/
def requiredRef (ids : List Nat) : Option Nat → Bool
  | none => false
  | some i => ids.contains i

/-- An optional (nullable) foreign-key column: absent is fine, a present
value must reference an existing id. -/
def optionalRef (ids : List Nat) : Option Nat → Bool
  | none => true
  | some i => ids.contains i

def userIds (db : DB) : List Nat := db.users.map (·.id)

def ticketIds (db : DB) : List Nat := db.tickets.map (·.id)

def subjectIds (db : DB) : List Nat := db.subjects.map (·.id)

/-- Constraints of the `users` table: `username`, `email`, `password` are
`nullable=False`; `id` is the primary key; `email` is `unique=True`. -/
def checkUsers (db : DB) : Bool :=
  db.users.all (fun u => u.username.isSome && u.email.isSome && u.password.isSome)
    && distinctB (db.users.map (·.id))
    && distinctB (db.users.map (·.email))

/-- Constraints of the `tickets` table: `ticket_number` and `title` are
`nullable=False`; `user_id` is a required foreign key into `users`;
`allocated_to` an optional one; `id` is the primary key.
`ticket_number` carries no uniqueness constraint. -/
def checkTickets (db : DB) : Bool :=
  db.tickets.all (fun t =>
      t.ticket_number.isSome && t.title.isSome
        && requiredRef (userIds db) t.user_id
        && optionalRef (userIds db) t.allocated_to)
    && distinctB (db.tickets.map (·.id))

/-- Constraints of the `files` table: `name` is `nullable=False`;
`ticket_id` is an optional foreign key into `tickets`. -/
def checkFiles (db : DB) : Bool :=
  db.files.all (fun f => f.name.isSome && optionalRef (ticketIds db) f.ticket_id)
    && distinctB (db.files.map (·.id))

/-- Constraints of the `subjects` table: `subject_text` is `nullable=False`. -/
def checkSubjects (db : DB) : Bool :=
  db.subjects.all (fun s => s.subject_text.isSome)
    && distinctB (db.subjects.map (·.id))

/-- Constraints of the `ticket_subjects` table: both foreign keys are
`nullable=False`; only `id` (the sequence) is unique — there is no
uniqueness constraint on the (ticket_id, subject_id) pair. -/
def checkTicketSubjects (db : DB) : Bool :=
  db.ticket_subjects.all (fun l =>
      requiredRef (ticketIds db) l.ticket_id
        && requiredRef (subjectIds db) l.subject_id)
    && distinctB (db.ticket_subjects.map (·.id))

/-- All schema constraints of models.py at once; a commit succeeds exactly
when the resulting state satisfies them. -/
def checkDB (db : DB) : Bool :=
  checkUsers db && checkTickets db && checkFiles db
    && checkSubjects db && checkTicketSubjects db

/-- Models `session.add(u); session.commit()` for a user row.  On
constraint violation the commit fails and the session rolls back to the
previously committed state, which is returned unchanged with the error. -/
def createUser (db : DB) (u : UserRow) : Option StoreErr × DB :=
  let db' := { db with users := db.users ++ [u] }
  if checkDB db' then (none, db') else (some StoreErr.constraintViolation, db)

/-- Models `session.add(t); session.commit()` for a ticket row. -/
def createTicket (db : DB) (t : TicketRow) : Option StoreErr × DB :=
  let db' := { db with tickets := db.tickets ++ [t] }
  if checkDB db' then (none, db') else (some StoreErr.constraintViolation, db)

/-- Models `session.add(f); session.commit()` for a file row. -/
def createFile (db : DB) (f : FileRow) : Option StoreErr × DB :=
  let db' := { db with files := db.files ++ [f] }
  if checkDB db' then (none, db') else (some StoreErr.constraintViolation, db)

/-- Models `session.add(s); session.commit()` for a subject row. -/
def createSubject (db : DB) (s : SubjectRow) : Option StoreErr × DB :=
  let db' := { db with subjects := db.subjects ++ [s] }
  if checkDB db' then (none, db') else (some StoreErr.constraintViolation, db)

/-- Models `session.add(l); session.commit()` for a ticket-subject link
row. -/
def createTicketSubject (db : DB) (l : TicketSubjectRow) : Option StoreErr × DB :=
  let db' := { db with ticket_subjects := db.ticket_subjects ++ [l] }
  if checkDB db' then (none, db') else (some StoreErr.constraintViolation, db)

/-- The store's `get_by_id` for users: resolve a primary-key value to
its row. -/
def getUserById (db : DB) (i : Nat) : Option UserRow :=
  db.users.find? (fun u => u.id == i)

/-- Exact-match filter over the tickets table,
`session.query(Ticket).filter_by(ticket_number=num)`
(models.py line 182). -/
def findTicketsByNumber (db : DB) (num : String) : List TicketRow :=
  db.tickets.filter (fun t => t.ticket_number == some num)

/-- The next value of the `ticket_subjects.id` auto-increment sequence. -/
def nextLinkId (db : DB) : Nat :=
  (db.ticket_subjects.map (·.id)).foldl max 0 + 1

/-- The user inserted by `main` (models.py lines 126-132). -/
def johnUser (uid : Nat) : UserRow :=
  { id := uid, username := some "john_doe", user_type := some "admin",
    email := some "john.doe@example.com", password := some "securepass123",
    role := some "admin" }

/-- The ticket inserted by `main` (models.py lines 138-147). -/
def tick001Row (tid uid now : Nat) : TicketRow :=
  { id := tid, ticket_number := some "TICK001",
    title := some "System Access Issue",
    description := some "User unable to access system",
    priority := some "High", status := some "Open", start_time := some now,
    department := some "IT", user_id := some uid, allocated_to := none }

/-- The subject inserted by `main` (models.py lines 153-156). -/
def loginSubjectRow (sid : Nat) : SubjectRow :=
  { id := sid, subject_text := some "Login Issue",
    description := some "Unable to login to the system",
    answer_1 := none, answer_2 := none, answer_3 := none }

/-- The file inserted by `main` (models.py lines 168-176); `tref` is the
ticket reference it carries (`new_ticket.id` in the source; an invalid id
models the spec's forced failure of the attach step). -/
def screenshotFileRow (fid : Nat) (tref : Option Nat) (now : Nat) : FileRow :=
  { id := fid, name := some "screenshot.png", ticket_id := tref,
    type := some "image/png", size := some "1024 KB",
    last_modified := some "Some metadata", last_modified_date := some now,
    file_path := some "/path/to/screenshot.png" }

/-- The workflow of `main` (models.py lines 124-179): create the user,
the ticket, the subject, the link and the file, each step an
`add` + `commit` of its own.  A failing commit rolls back only the open
transaction, so the state already committed by earlier steps is kept, and
the error propagates (the remaining steps are skipped, as the Python
exception aborts the `try` block). -/
def runWorkflow (db : DB) (uid tid sid fid now : Nat) (fref : Option Nat) :
    Option StoreErr × DB :=
  match createUser db (johnUser uid) with
  | (some e, d) => (some e, d)
  | (none, d1) =>
    match createTicket d1 (tick001Row tid uid now) with
    | (some e, d) => (some e, d)
    | (none, d2) =>
      match createSubject d2 (loginSubjectRow sid) with
      | (some e, d) => (some e, d)
      | (none, d3) =>
        match createTicketSubject d3
            { id := nextLinkId d3, ticket_id := some tid,
              subject_id := some sid } with
        | (some e, d) => (some e, d)
        | (none, d4) => createFile d4 (screenshotFileRow fid fref now)

/-- The subject texts reachable from a ticket through its
`ticket_subjects` links (`subject.subject.subject_text`,
models.py lines 184-185). -/
def subjectTextsOf (db : DB) (t : TicketRow) : List String :=
  (db.ticket_subjects.filter (fun l => l.ticket_id == some t.id)).filterMap
    (fun l =>
      match l.subject_id with
      | none => none
      | some sid =>
        match db.subjects.find? (fun s => s.id == sid) with
        | none => none
        | some s => s.subject_text)

/-- The names of the files attached to a ticket
(`session.query(File).filter_by(ticket_id=...)`, models.py lines 187-189). -/
def fileNamesOf (db : DB) (t : TicketRow) : List String :=
  (db.files.filter (fun f => f.ticket_id == some t.id)).filterMap (·.name)

/-- The verification query of `main` (models.py lines 182-189):
`.first()` takes the first ticket matching the number, if any; when there
is none the guarded block is skipped and nothing is reported. -/
def verifyQuery (db : DB) (num : String) : List String × List String :=
  match (findTicketsByNumber db num).head? with
  | none => ([], [])
  | some t => (subjectTextsOf db t, fileNamesOf db t)

/-- Modelled from the spec: the Relational Store `delete` operation does
not appear in src/ (only the schema's foreign keys and the session do).
Per spec section 4.2 and the no-cascade baseline of section 3, deleting
a User fails with `NotFound` when the id does not resolve and with
`ConstraintViolation` while any Ticket still references the User through
`user_id` or `allocated_to`; otherwise the row is removed. -/
def deleteUser (db : DB) (i : Nat) : Except StoreErr DB :=
  if db.users.any (fun u => u.id == i) then
    if db.tickets.any (fun t => t.user_id == some i || t.allocated_to == some i) then
      Except.error StoreErr.constraintViolation
    else
      Except.ok { db with users := db.users.filter (fun u => !(u.id == i)) }
  else
    Except.error StoreErr.notFound

/-- The committed state visible after a delete attempt: a failed delete
leaves the store at the state it had before the call. -/
def stateAfterDelete (db : DB) (i : Nat) : DB :=
  match deleteUser db i with
  | Except.ok d => d
  | Except.error _ => db

/-- The environment variables `create_db_url` requires
(models.py line 30). -/
def required_vars : List String :=
  ["PGUSER", "PGPASSWORD", "PGHOST", "PGPORT", "PGDATABASE"]

/-- The dict comprehension of models.py line 32: read the variables in
order and raise `KeyError` naming the first one that is absent. -/
def collectEnv (env : String → Option String) :
    List String → Except String (List (String × String))
  | [] => Except.ok []
  | v :: vs =>
    match env v with
    | none => Except.error v
    | some x =>
      match collectEnv env vs with
      | Except.error e => Except.error e
      | Except.ok rest => Except.ok ((v, x) :: rest)

/-- Lookup of a collected variable by name, used to interpolate the URL. -/
def lookupVal (kvs : List (String × String)) (k : String) : String :=
  match kvs.find? (fun p => p.1 == k) with
  | some p => p.2
  | none => ""

/-- The function `create_db_url` (models.py lines 28-36): collect all five
required environment variables, then interpolate the connection string;
a missing variable raises, the error naming the variable, and the raise
is re-raised to the caller. -/
def create_db_url (env : String → Option String) : Except String String :=
  match collectEnv env required_vars with
  | Except.error e => Except.error e
  | Except.ok kvs =>
    Except.ok ("postgresql+psycopg2://" ++ lookupVal kvs "PGUSER" ++ ":"
      ++ lookupVal kvs "PGPASSWORD" ++ "@" ++ lookupVal kvs "PGHOST" ++ ":"
      ++ lookupVal kvs "PGPORT" ++ "/" ++ lookupVal kvs "PGDATABASE")

/-- The entry point `main` (models.py lines 108-198): build the engine
from `create_db_url` — whose exception propagates before any store
operation runs — and then execute the workflow against an empty store. -/
def mainModel (env : String → Option String) (uid tid sid fid now : Nat) :
    Except String (Option StoreErr × DB) :=
  match create_db_url env with
  | Except.error e => Except.error e
  | Except.ok _ => Except.ok (runWorkflow emptyDB uid tid sid fid now (some tid))

/-- A store holding a single user, for concrete instantiations. -/
def oneUserDB : DB :=
  { emptyDB with users := [johnUser 1] }

/-- A store with one user, one ticket, one subject and one link between
the ticket and the subject, for concrete instantiations. -/
def linkedDB : DB :=
  { users := [johnUser 1], tickets := [tick001Row 2 1 0], files := [],
    subjects := [loginSubjectRow 3],
    ticket_subjects := [{ id := 1, ticket_id := some 2, subject_id := some 3 }] }

/-- A store with two distinct tickets sharing the ticket number
`TICK001`, legal because `ticket_number` carries no uniqueness
constraint. -/
def twoTicketDB : DB :=
  { users := [johnUser 1], tickets := [tick001Row 2 1 0, tick001Row 3 1 0],
    files := [], subjects := [], ticket_subjects := [] }

/-- A concrete environment in which `PGHOST` is absent and every other
variable is set. -/
def env0 : String → Option String :=
  fun k => if k == "PGHOST" then none else some "v"

/-- A user row violating the `nullable=False` constraint on `username`. -/
def noNameUser : UserRow :=
  { id := 5, username := none, user_type := none,
    email := some "x@example.com", password := some "p", role := none }

/-- A ticket row violating the `nullable=False` constraint on `title`. -/
def noTitleTicket : TicketRow :=
  { id := 6, ticket_number := some "T2", title := none, description := none,
    priority := none, status := none, start_time := none, department := none,
    user_id := some 1, allocated_to := none }

end TicketSystem

namespace TicketSystem

theorem distinctB_append_iff {α : Type} [BEq α] [LawfulBEq α] (l : List α) (a : α) :
    distinctB (l ++ [a]) = true ↔ distinctB l = true ∧ a ∉ l := by
  induction l with
  | nil => simp [distinctB]
  | cons x xs ih =>
    simp [distinctB, ih]
    tauto

theorem distinctB_append_mem {α : Type} [BEq α] [LawfulBEq α] (l : List α) (a : α)
    (h : a ∈ l) : distinctB (l ++ [a]) = false := by
  cases hb : distinctB (l ++ [a]) with
  | false => rfl
  | true => exact (((distinctB_append_iff l a).mp hb).2 h).elim

theorem checkDB_split (db : DB) (h : checkDB db = true) :
    checkUsers db = true ∧ checkTickets db = true ∧ checkFiles db = true ∧
    checkSubjects db = true ∧ checkTicketSubjects db = true := by
  simp only [checkDB, Bool.and_eq_true] at h
  exact ⟨h.1.1.1.1, h.1.1.1.2, h.1.1.2, h.1.2, h.2⟩

theorem checkUsers_split (db : DB) (h : checkUsers db = true) :
    db.users.all (fun u => u.username.isSome && u.email.isSome && u.password.isSome) = true ∧
    distinctB (db.users.map (·.id)) = true ∧
    distinctB (db.users.map (·.email)) = true := by
  simp only [checkUsers, Bool.and_eq_true] at h
  exact ⟨h.1.1, h.1.2, h.2⟩

theorem checkTickets_split (db : DB) (h : checkTickets db = true) :
    (∀ t ∈ db.tickets, t.ticket_number.isSome = true ∧ t.title.isSome = true ∧
        requiredRef (userIds db) t.user_id = true ∧
        optionalRef (userIds db) t.allocated_to = true) ∧
    distinctB (db.tickets.map (·.id)) = true := by
  simp only [checkTickets, Bool.and_eq_true, List.all_eq_true] at h
  refine ⟨fun t ht => ?_, h.2⟩
  have hx := h.1 t ht
  exact ⟨hx.1.1.1, hx.1.1.2, hx.1.2, hx.2⟩

theorem checkTicketSubjects_split (db : DB) (h : checkTicketSubjects db = true) :
    (∀ l ∈ db.ticket_subjects, requiredRef (ticketIds db) l.ticket_id = true ∧
        requiredRef (subjectIds db) l.subject_id = true) ∧
    distinctB (db.ticket_subjects.map (·.id)) = true := by
  simp only [checkTicketSubjects, Bool.and_eq_true, List.all_eq_true] at h
  exact ⟨fun l hl => h.1 l hl, h.2⟩

theorem requiredRef_exists (ids : List Nat) (o : Option Nat)
    (h : requiredRef ids o = true) : ∃ i ∈ ids, o = some i := by
  cases ho : o with
  | none => rw [ho] at h; exact absurd h (by simp [requiredRef])
  | some i =>
    rw [ho] at h
    simp only [requiredRef] at h
    exact ⟨i, by simpa using h, rfl⟩

theorem find?_id_append (l : List UserRow) (u : UserRow)
    (h : distinctB ((l ++ [u]).map (·.id)) = true) :
    (l ++ [u]).find? (fun x => x.id == u.id) = some u := by
  have h2 : u.id ∉ l.map (·.id) := by
    have hm : distinctB (l.map (·.id) ++ [u.id]) = true := by
      simpa using h
    exact ((distinctB_append_iff (l.map (·.id)) u.id).mp hm).2
  rw [List.find?_append]
  have hnone : l.find? (fun x => x.id == u.id) = none := by
    apply List.find?_eq_none.mpr
    intro x hx
    simp only [beq_eq_false_iff_ne, ne_eq, Bool.not_eq_true]
    intro he
    exact h2 (List.mem_map.mpr ⟨x, hx, he⟩)
  simp [hnone]

/-- Shared round-trip fact: a user row committed by a successful create
is found again under its id, unchanged. -/
theorem createUser_lookup (db : DB) (u : UserRow)
    (h : (createUser db u).1 = none) :
    getUserById (createUser db u).2 u.id = some u := by
  by_cases hC : checkDB { db with users := db.users ++ [u] } = true
  · have hids : distinctB (({ db with users := db.users ++ [u] } : DB).users.map (·.id)) = true :=
      ((checkUsers_split _ ((checkDB_split _ hC).1)).2).1
    have h2 : (createUser db u).2 = { db with users := db.users ++ [u] } := by
      simp [createUser, hC]
    rw [h2]
    show (db.users ++ [u]).find? (fun x => x.id == u.id) = some u
    exact find?_id_append db.users u hids
  · simp [createUser, hC] at h

theorem collectEnv_error (env : String → Option String) :
    ∀ (l : List String) (w : String),
      l.find? (fun v => (env v).isNone) = some w →
      env w = none ∧ collectEnv env l = Except.error w := by
  intro l
  induction l with
  | nil => intro w h; simp at h
  | cons x xs ih =>
    intro w h
    rw [List.find?_cons] at h
    cases hx : env x with
    | none =>
      rw [hx] at h
      simp at h
      cases h
      exact ⟨hx, by simp [collectEnv, hx]⟩
    | some v =>
      rw [hx] at h
      simp at h
      rcases ih w h with ⟨h1, h2⟩
      exact ⟨h1, by simp [collectEnv, hx, h2]⟩

end TicketSystem

namespace TicketSystem

/-- C1 (counterexample): forcing the File-attach step to fail (file
carries ticket reference 99, not the real ticket id 2) leaves the
workflow failed with a constraint violation, yet the Subject row
"Login Issue", the Ticket and the TicketSubject link all still persist:
`main` commits after every step, so the claimed full rollback does not
happen. -/
theorem workflow_rollback_counterexample :
    (runWorkflow emptyDB 1 2 3 4 0 (some 99)).1 = some StoreErr.constraintViolation ∧
    ((runWorkflow emptyDB 1 2 3 4 0 (some 99)).2.subjects.filter
        (fun s => s.subject_text == some "Login Issue")).length = 1 ∧
    (runWorkflow emptyDB 1 2 3 4 0 (some 99)).2.tickets ≠ [] ∧
    (runWorkflow emptyDB 1 2 3 4 0 (some 99)).2.ticket_subjects ≠ [] := by
  decide

/-- C1 (amended): the workflow is not atomic.  Each step commits on its
own, so when the File-attach step fails (any invalid ticket reference
`r ≠ tid`), only the uncommitted File insert is rolled back: the Ticket
"TICK001", the Subject "Login Issue" and the TicketSubject link created
earlier in the same invocation remain committed, and no file row exists. -/
theorem workflow_partial_commit_persists (uid tid sid fid now r : Nat)
    (hr : r ≠ tid) :
    (runWorkflow emptyDB uid tid sid fid now (some r)).1
        = some StoreErr.constraintViolation ∧
    ((runWorkflow emptyDB uid tid sid fid now (some r)).2.tickets.map
        (·.ticket_number)) = [some "TICK001"] ∧
    ((runWorkflow emptyDB uid tid sid fid now (some r)).2.subjects.map
        (·.subject_text)) = [some "Login Issue"] ∧
    ((runWorkflow emptyDB uid tid sid fid now (some r)).2.ticket_subjects.map
        (fun l => (l.ticket_id, l.subject_id))) = [(some tid, some sid)] ∧
    (runWorkflow emptyDB uid tid sid fid now (some r)).2.files = [] := by
  simp [runWorkflow, createUser, createTicket, createSubject,
    createTicketSubject, createFile, checkDB, checkUsers, checkTickets,
    checkFiles, checkSubjects, checkTicketSubjects, distinctB, requiredRef,
    optionalRef, userIds, ticketIds, subjectIds, emptyDB, johnUser,
    tick001Row, loginSubjectRow, screenshotFileRow, nextLinkId, hr, Ne.symm hr]

theorem workflow_partial_commit_persists_witness :
    (runWorkflow emptyDB 1 2 3 4 0 (some 99)).1 = some StoreErr.constraintViolation ∧
    ((runWorkflow emptyDB 1 2 3 4 0 (some 99)).2.subjects.map (·.subject_text))
      = [some "Login Issue"] ∧
    (runWorkflow emptyDB 1 2 3 4 0 (some 99)).2.files = [] :=
  ⟨(workflow_partial_commit_persists 1 2 3 4 0 99 (by decide)).1,
   (workflow_partial_commit_persists 1 2 3 4 0 99 (by decide)).2.2.1,
   (workflow_partial_commit_persists 1 2 3 4 0 99 (by decide)).2.2.2.2⟩

/-- C2: creating a second user with the email of an already-committed
user fails with a constraint violation, leaves the store unchanged, and
the first user is still queryable under their id, unchanged. -/
theorem duplicate_email_rejected (db : DB) (u1 u2 : UserRow)
    (h1 : (createUser db u1).1 = none) (he : u2.email = u1.email) :
    createUser (createUser db u1).2 u2
        = (some StoreErr.constraintViolation, (createUser db u1).2) ∧
    getUserById (createUser db u1).2 u1.id = some u1 := by
  refine ⟨?_, createUser_lookup db u1 h1⟩
  by_cases hC : checkDB { db with users := db.users ++ [u1] } = true
  · have hdb1 : (createUser db u1).2 = { db with users := db.users ++ [u1] } := by
      simp [createUser, hC]
    rw [hdb1]
    have hmem : u2.email ∈ (db.users ++ [u1]).map (·.email) := by
      rw [he]
      exact List.mem_map.mpr ⟨u1, List.mem_append_right _ (List.mem_singleton.mpr rfl), rfl⟩
    have hdup := distinctB_append_mem ((db.users ++ [u1]).map (·.email)) u2.email hmem
    have hCU : checkUsers { db with users := (db.users ++ [u1]) ++ [u2] } = false := by
      cases hcu : checkUsers { db with users := (db.users ++ [u1]) ++ [u2] } with
      | false => rfl
      | true =>
        have hd := (checkUsers_split _ hcu).2.2
        simp only [List.map_append, List.map_cons, List.map_nil] at hd hdup
        rw [hd] at hdup
        exact hdup
    have hC2 : checkDB { db with users := (db.users ++ [u1]) ++ [u2] } = false := by
      cases hx : checkDB { db with users := (db.users ++ [u1]) ++ [u2] } with
      | false => rfl
      | true =>
        have hu := (checkDB_split _ hx).1
        rw [hCU] at hu
        exact hu.symm
    simp only [createUser]
    rw [hC2]
    simp
  · simp [createUser, hC] at h1

theorem duplicate_email_rejected_witness :
    createUser (createUser emptyDB (johnUser 1)).2 (johnUser 2)
        = (some StoreErr.constraintViolation, (createUser emptyDB (johnUser 1)).2) ∧
    getUserById (createUser emptyDB (johnUser 1)).2 1 = some (johnUser 1) :=
  duplicate_email_rejected emptyDB (johnUser 1) (johnUser 2) (by decide) rfl

/-- C3: a ticket whose `user_id` resolves to no existing user is rejected
by the foreign-key constraint with a constraint violation, and the store
is returned unchanged — no ticket row exists afterward. -/
theorem ticket_dangling_user_rejected (db : DB) (t : TicketRow)
    (h : ∀ u ∈ db.users, some u.id ≠ t.user_id) :
    createTicket db t = (some StoreErr.constraintViolation, db) := by
  have hC : checkDB { db with tickets := db.tickets ++ [t] } = false := by
    cases hx : checkDB { db with tickets := db.tickets ++ [t] } with
    | false => rfl
    | true =>
      have hts := (checkDB_split _ hx).2.1
      have hmem := ((checkTickets_split _ hts).1 t (by simp)).2.2.1
      cases hti : t.user_id with
      | none =>
        rw [hti] at hmem
        exact absurd hmem (by simp [requiredRef])
      | some i =>
        rw [hti] at hmem
        simp only [requiredRef, userIds] at hmem
        have hin : i ∈ db.users.map (·.id) := by simpa using hmem
        rcases List.mem_map.mp hin with ⟨u, hm, hui⟩
        exact ((h u hm) (by rw [hui, hti])).elim
  simp only [createTicket]
  rw [hC]
  simp

theorem ticket_dangling_user_rejected_witness :
    createTicket oneUserDB (tick001Row 2 7 0)
      = (some StoreErr.constraintViolation, oneUserDB) :=
  ticket_dangling_user_rejected oneUserDB (tick001Row 2 7 0) (by decide)

/-- C4: run from the empty store with the references `main` passes, the
five-step workflow succeeds, the ticket-number query finds exactly one
ticket "TICK001", and the verification query resolves its subjects to
"Login Issue" and its files to "screenshot.png". -/
theorem workflow_success_query :
    (runWorkflow emptyDB 1 2 3 4 0 (some 2)).1 = none ∧
    (findTicketsByNumber (runWorkflow emptyDB 1 2 3 4 0 (some 2)).2 "TICK001").length = 1 ∧
    verifyQuery (runWorkflow emptyDB 1 2 3 4 0 (some 2)).2 "TICK001"
      = (["Login Issue"], ["screenshot.png"]) := by
  decide

/-- C5: when some required connection variable is absent (the first
absent one in declaration order being `w`), `create_db_url` fails fast
with an error naming `w`, which really is absent and really is one of
the five required variables; no URL is ever produced from defaults, and
`main` propagates the error before any store operation runs. -/
theorem create_db_url_missing_fails_fast (env : String → Option String) (w : String)
    (h : required_vars.find? (fun v => (env v).isNone) = some w) :
    w ∈ required_vars ∧ env w = none ∧
    create_db_url env = Except.error w ∧
    (∀ s, create_db_url env ≠ Except.ok s) ∧
    (∀ uid tid sid fid now, mainModel env uid tid sid fid now = Except.error w) := by
  have hmem : w ∈ required_vars := List.mem_of_find?_eq_some h
  rcases collectEnv_error env required_vars w h with ⟨h1, h2⟩
  have hurl : create_db_url env = Except.error w := by
    simp [create_db_url, h2]
  refine ⟨hmem, h1, hurl, ?_, ?_⟩
  · intro s hs
    rw [hurl] at hs
    simp at hs
  · intro uid tid sid fid now
    simp [mainModel, hurl]

theorem create_db_url_missing_fails_fast_witness :
    env0 "PGHOST" = none ∧ create_db_url env0 = Except.error "PGHOST" ∧
    mainModel env0 1 2 3 4 0 = Except.error "PGHOST" :=
  ⟨(create_db_url_missing_fails_fast env0 "PGHOST" (by decide)).2.1,
   (create_db_url_missing_fails_fast env0 "PGHOST" (by decide)).2.2.1,
   (create_db_url_missing_fails_fast env0 "PGHOST" (by decide)).2.2.2.2 1 2 3 4 0⟩

/-- C6: create/read round-trip — after a successful user create,
`get_by_id` with the created identifier, with no intervening writes,
returns a row equal in every field to the one submitted. -/
theorem createUser_get_by_id_roundtrip (db : DB) (u : UserRow)
    (h : (createUser db u).1 = none) :
    getUserById (createUser db u).2 u.id = some u :=
  createUser_lookup db u h

theorem createUser_get_by_id_roundtrip_witness :
    (createUser emptyDB (johnUser 1)).1 = none ∧
    getUserById (createUser emptyDB (johnUser 1)).2 1 = some (johnUser 1) :=
  ⟨by decide, createUser_get_by_id_roundtrip emptyDB (johnUser 1) (by decide)⟩

/-- C7: in any state satisfying the schema constraints, every
TicketSubject row references an existing Ticket and an existing Subject,
and because the pair carries no uniqueness constraint, inserting a second
link with the same (ticket, subject) pair under a fresh sequence id
commits successfully. -/
theorem ticket_subject_refs_and_duplicates (db : DB) (hdb : checkDB db = true) :
    (∀ l ∈ db.ticket_subjects,
        (∃ t ∈ db.tickets, some t.id = l.ticket_id) ∧
        (∃ s ∈ db.subjects, some s.id = l.subject_id)) ∧
    (∀ l ∈ db.ticket_subjects, ∀ i, i ∉ db.ticket_subjects.map (·.id) →
        (createTicketSubject db
          { id := i, ticket_id := l.ticket_id, subject_id := l.subject_id }).1
            = none) := by
  have hls := (checkDB_split _ hdb).2.2.2.2
  have hsplit := checkTicketSubjects_split _ hls
  constructor
  · intro l hl
    have hr := hsplit.1 l hl
    constructor
    · rcases requiredRef_exists _ _ hr.1 with ⟨j, hj, ho⟩
      rcases List.mem_map.mp hj with ⟨t, htm, hti⟩
      exact ⟨t, htm, by rw [hti, ho]⟩
    · rcases requiredRef_exists _ _ hr.2 with ⟨j, hj, ho⟩
      rcases List.mem_map.mp hj with ⟨s, hsm, hsi⟩
      exact ⟨s, hsm, by rw [hsi, ho]⟩
  · intro l hl i hi
    have hr := hsplit.1 l hl
    have h5 : checkTicketSubjects
        { db with ticket_subjects := db.ticket_subjects ++
            [{ id := i, ticket_id := l.ticket_id, subject_id := l.subject_id }] }
          = true := by
      have hdist : distinctB (db.ticket_subjects.map (·.id) ++ [i]) = true :=
        (distinctB_append_iff _ _).mpr ⟨hsplit.2, hi⟩
      simp [checkTicketSubjects, List.all_append, List.all_eq_true, hdist,
        ticketIds, subjectIds]
      refine ⟨fun x hx => ?_, ?_, ?_⟩
      · have hrx := hsplit.1 x hx
        simpa [ticketIds, subjectIds] using hrx
      · simpa [ticketIds] using hr.1
      · simpa [subjectIds] using hr.2
    have hC : checkDB
        { db with ticket_subjects := db.ticket_subjects ++
            [{ id := i, ticket_id := l.ticket_id, subject_id := l.subject_id }] }
          = true := by
      simp only [checkDB, Bool.and_eq_true]
      exact ⟨⟨⟨⟨(checkDB_split _ hdb).1, (checkDB_split _ hdb).2.1⟩,
        (checkDB_split _ hdb).2.2.1⟩, (checkDB_split _ hdb).2.2.2.1⟩, h5⟩
    simp only [createTicketSubject]
    rw [hC]
    simp

theorem ticket_subject_refs_and_duplicates_witness :
    (createTicketSubject linkedDB
      { id := 2, ticket_id := some 2, subject_id := some 3 }).1 = none :=
  (ticket_subject_refs_and_duplicates linkedDB (by decide)).2
    { id := 1, ticket_id := some 2, subject_id := some 3 } (by decide) 2 (by decide)

/-- C8: deleting a user who still has a created ticket referencing them
fails with a constraint violation (the baseline schema has no cascade or
nullify behaviour), the store state is unchanged, and the user row the
ticket references does exist. -/
theorem deleteUser_referenced_rejected (db : DB) (uid : Nat) (t : TicketRow)
    (hdb : checkDB db = true) (ht : t ∈ db.tickets) (hu : t.user_id = some uid) :
    deleteUser db uid = Except.error StoreErr.constraintViolation ∧
    stateAfterDelete db uid = db ∧
    (∃ u ∈ db.users, u.id = uid) := by
  have hts := (checkDB_split _ hdb).2.1
  have hreq := ((checkTickets_split _ hts).1 t ht).2.2.1
  rw [hu] at hreq
  simp only [requiredRef, userIds] at hreq
  have hin : uid ∈ db.users.map (·.id) := by simpa using hreq
  rcases List.mem_map.mp hin with ⟨u, hum, hui⟩
  have hexists : db.users.any (fun x => x.id == uid) = true :=
    List.any_eq_true.mpr ⟨u, hum, by simp [hui]⟩
  have hrefs : db.tickets.any
      (fun x => x.user_id == some uid || x.allocated_to == some uid) = true :=
    List.any_eq_true.mpr ⟨t, ht, by simp [hu]⟩
  have hdel : deleteUser db uid = Except.error StoreErr.constraintViolation := by
    simp [deleteUser, hexists, hrefs]
  exact ⟨hdel, by simp [stateAfterDelete, hdel], ⟨u, hum, hui⟩⟩

theorem deleteUser_referenced_rejected_witness :
    deleteUser linkedDB 1 = Except.error StoreErr.constraintViolation ∧
    stateAfterDelete linkedDB 1 = linkedDB ∧
    (∃ u ∈ linkedDB.users, u.id = 1) :=
  deleteUser_referenced_rejected linkedDB 1 (tick001Row 2 1 0) (by decide)
    (by decide) rfl

/-- C9: the remaining `nullable=False` columns are enforced — a user
insert missing `username` or `password`, and a ticket insert missing
`ticket_number` or `title`, each fail with a constraint violation and
leave the store unchanged (no row added). -/
theorem required_fields_enforced (db : DB) (u : UserRow) (t : TicketRow)
    (hu : u.username = none ∨ u.password = none)
    (ht : t.ticket_number = none ∨ t.title = none) :
    createUser db u = (some StoreErr.constraintViolation, db) ∧
    createTicket db t = (some StoreErr.constraintViolation, db) := by
  constructor
  · have hC : checkDB { db with users := db.users ++ [u] } = false := by
      cases hx : checkDB { db with users := db.users ++ [u] } with
      | false => rfl
      | true =>
        have hall := (checkUsers_split _ (checkDB_split _ hx).1).1
        have hrow := List.all_eq_true.mp hall u (by simp)
        rcases hu with h0 | h0 <;> rw [h0] at hrow <;> simp at hrow
    simp only [createUser]
    rw [hC]
    simp
  · have hC : checkDB { db with tickets := db.tickets ++ [t] } = false := by
      cases hx : checkDB { db with tickets := db.tickets ++ [t] } with
      | false => rfl
      | true =>
        have hrow := (checkTickets_split _ (checkDB_split _ hx).2.1).1 t (by simp)
        rcases ht with h0 | h0
        · rw [h0] at hrow
          simp at hrow
        · rw [h0] at hrow
          rcases hrow with ⟨-, h2, -, -⟩
          simp at h2
    simp only [createTicket]
    rw [hC]
    simp

theorem required_fields_enforced_witness :
    createUser oneUserDB noNameUser = (some StoreErr.constraintViolation, oneUserDB) ∧
    createTicket oneUserDB noTitleTicket = (some StoreErr.constraintViolation, oneUserDB) :=
  required_fields_enforced oneUserDB noNameUser noTitleTicket (Or.inl rfl) (Or.inr rfl)

/-- C10: the post-workflow verification query resolves at most one ticket
per ticket number — with several matches only the first is used — and
with no match it completes silently, reporting nothing and raising no
error. -/
theorem verifyQuery_first_match_silent (db : DB) (num : String) :
    (findTicketsByNumber db num = [] → verifyQuery db num = ([], [])) ∧
    (∀ t rest, findTicketsByNumber db num = t :: rest →
        verifyQuery db num = (subjectTextsOf db t, fileNamesOf db t)) := by
  constructor
  · intro h
    simp [verifyQuery, h]
  · intro t rest h
    simp [verifyQuery, h]

theorem verifyQuery_first_match_silent_witness :
    checkDB twoTicketDB = true ∧
    verifyQuery twoTicketDB "TICK001"
      = (subjectTextsOf twoTicketDB (tick001Row 2 1 0),
         fileNamesOf twoTicketDB (tick001Row 2 1 0)) ∧
    verifyQuery emptyDB "TICK001" = ([], []) :=
  ⟨by decide,
   (verifyQuery_first_match_silent twoTicketDB "TICK001").2 (tick001Row 2 1 0)
     [tick001Row 3 1 0] (by decide),
   (verifyQuery_first_match_silent emptyDB "TICK001").1 rfl⟩

end TicketSystem
